import Mathlib

/-
Verification of the calculator engine against its design document.

Sources embedded from the repository:
  * app/exceptions.py        — error taxonomy (inductive Err below)
  * app/input_validators.py  — InputValidator.validate_number
  * app/operations.py        — operation strategies and OperationFactory
The calculation-engine modules (app/calculator.py, app/calculation.py,
app/calculator_config.py, app/calculator_memento.py) are not present in the
source tree; definitions for them are modelled from the specification, as
marked in their doc comments.

Number model: Python `Decimal` values are modelled by `Dec`, a pair of an
integer coefficient and an integer exponent (value = c * 10^e).  The model
covers finite decimals; special values (NaN, Infinity) and the 28-digit
context rounding of Decimal arithmetic are outside the model (no claim
below depends on them).  Value-level arithmetic is carried out in ℚ.
-/

namespace CalcSpec

/-- Finite Python `Decimal`: coefficient `c` and exponent `e`, denoting
`c * 10^e`. -/
structure Dec where
  c : Int
  e : Int
  deriving DecidableEq, Repr

/-- Rational value denoted by a `Dec`. -/
def Dec.val (d : Dec) : ℚ := (d.c : ℚ) * (10 : ℚ) ^ d.e

/-- Numeric value of a list of ASCII digit characters (most significant
first), as accumulated by a base-10 fold. -/
def digitsToNat (l : List Char) : ℕ :=
  l.foldl (fun acc ch => acc * 10 + (ch.toNat - 48)) 0

/-- Exponent suffix of a decimal literal: either empty, or `e`/`E` followed
by an optional sign and a nonempty digit string.  Models the exponent part
accepted by the `Decimal` constructor. -/
def parseExpPart (l : List Char) : Option Int :=
  match l with
  | [] => some 0
  | ch :: t =>
    if ch = 'e' ∨ ch = 'E' then
      match t with
      | '+' :: t2 =>
        if t2 ≠ [] ∧ t2.all Char.isDigit then some (digitsToNat t2) else none
      | '-' :: t2 =>
        if t2 ≠ [] ∧ t2.all Char.isDigit then some (-(digitsToNat t2 : Int)) else none
      | t2 =>
        if t2 ≠ [] ∧ t2.all Char.isDigit then some (digitsToNat t2) else none
    else none

/-- Mantissa of a decimal literal: `digits`, `digits.digits`, `digits.` or
`.digits`, with at least one digit overall.  Returns the digit value, the
number of fractional digits, and the unconsumed remainder. -/
def parseMantissa (l : List Char) : Option (ℕ × ℕ × List Char) :=
  let ip := l.takeWhile Char.isDigit
  let r1 := l.dropWhile Char.isDigit
  match r1 with
  | '.' :: t =>
    let fp := t.takeWhile Char.isDigit
    let r2 := t.dropWhile Char.isDigit
    if ip.isEmpty ∧ fp.isEmpty then none else some (digitsToNat (ip ++ fp), fp.length, r2)
  | _ => if ip.isEmpty then none else some (digitsToNat ip, 0, r1)

/-- Conversion of a string to a finite `Decimal`, modelling the `Decimal`
constructor on plain numeric literals: optional sign, mantissa, optional
exponent; anything else fails (Python raises `InvalidOperation`). -/
def parseDec (s : String) : Option Dec :=
  let (sg, l) : Int × List Char :=
    match s.data with
    | '+' :: t => (1, t)
    | '-' :: t => (-1, t)
    | t => (1, t)
  match parseMantissa l with
  | none => none
  | some (m, fl, rest) =>
    match parseExpPart rest with
    | none => none
    | some ex => some ⟨sg * m, ex - fl⟩

/-- Auxiliary loop of `Dec.normalize`: repeatedly divide the coefficient by
10 while it is divisible, incrementing the exponent; `n` is fuel bounding
the number of strippable zeros. -/
def stripZeros : ℕ → Int → Int → Dec
  | 0, c, e => ⟨c, e⟩
  | n + 1, c, e => if c % 10 = 0 then stripZeros n (c / 10) (e + 1) else ⟨c, e⟩

/-- Python `Decimal.normalize()` on finite values: remove trailing zeros of
the coefficient, mapping any zero to `0E+0`. -/
def Dec.normalize (d : Dec) : Dec :=
  if d.c = 0 then ⟨0, 0⟩ else stripZeros d.c.natAbs d.c d.e

/-- Python `str.strip()`: remove leading and trailing whitespace. -/
def pyStrip (s : String) : String :=
  ⟨(((s.data.dropWhile Char.isWhitespace).reverse.dropWhile Char.isWhitespace).reverse)⟩

/-- Error taxonomy.  The first four constructors embed the exception classes
of app/exceptions.py.  `persistenceError`, `dataFormatError` and
`noOperationSelected` are the specification's names for the persistence,
record-format and no-operation failures of the absent engine modules; in the
repository's own taxonomy (and its tests) all three surface as
`OperationError` instances. -/
inductive Err where
  | validationError (msg : String)
  | operationError (msg : String)
  | configurationError (msg : String)
  | persistenceError (msg : String)
  | dataFormatError (msg : String)
  | noOperationSelected
  deriving DecidableEq, Repr

/-- Modelled from the spec: app/calculator_config.py is absent.  Read-only
bounds consumed by the engine (`max_history_size`, `max_input_value`,
`auto_save`); file locations are left to the file-source model below. -/
structure Config where
  maxHistorySize : ℕ
  maxInputValue : Dec
  autoSave : Bool

/-- Raw input accepted by `InputValidator.validate_number`: either a string,
or a numeric value (int / float / Decimal) whose `str()` form re-parses to
the same decimal. -/
inductive RawValue where
  | ofString (s : String)
  | ofNum (d : Dec)

/-- InputValidator.validate_number from app/input_validators.py: strip
string inputs, convert through `Decimal(str(value))`, reject values whose
absolute value exceeds `max_input_value`, and return the normalized number.
Conversion failure raises `ValidationError` (from `InvalidOperation`). -/
def validateNumber (v : RawValue) (cfg : Config) : Except Err Dec :=
  match v with
  | .ofString s =>
    match parseDec (pyStrip s) with
    | none => .error (.validationError ("Invalid number format: " ++ pyStrip s))
    | some d =>
      if |d.val| > cfg.maxInputValue.val then
        .error (.validationError "Value exceeds maximum allowed")
      else
        .ok d.normalize
  | .ofNum d =>
    if |d.val| > cfg.maxInputValue.val then
      .error (.validationError "Value exceeds maximum allowed")
    else
      .ok d.normalize

/-- Strategy classes of app/operations.py, one constructor per concrete
`Operation` subclass registered with the factory. -/
inductive OpClass where
  | Addition
  | Subtraction
  | Multiplication
  | Division
  | Power
  | Root
  | Modulus
  | Int_division
  | Percentage
  | Abs_difference
  deriving DecidableEq, Repr

/-- OperationFactory._operations from app/operations.py: the dictionary
mapping lowercase operation identifiers to strategy classes. -/
def factoryOperations : List (String × OpClass) :=
  [("add", .Addition),
   ("subtract", .Subtraction),
   ("multiply", .Multiplication),
   ("divide", .Division),
   ("power", .Power),
   ("root", .Root),
   ("modulus", .Modulus),
   ("int_divide", .Int_division),
   ("percentage", .Percentage),
   ("abs_diff", .Abs_difference)]

/-- Python `str.lower()` on ASCII identifiers, character by character. -/
def pyLower (s : String) : String := ⟨s.data.map Char.toLower⟩

/-- OperationFactory.create_operation from app/operations.py: look the
lowercased identifier up in `_operations` and instantiate the class, or
raise `ValueError` for an unknown identifier.  An error is modelled by the
`ValueError` message string on the left. -/
def create_operation (operationType : String) : Except String OpClass :=
  match factoryOperations.lookup (pyLower operationType) with
  | some cls => .ok cls
  | none => .error ("Unknown operation: " ++ operationType)

/-- Division.validate_operands from app/operations.py: reject a zero
divisor. -/
def divisionValidateOperands (a b : ℚ) : Except Err Unit :=
  if b = 0 then .error (.validationError "Division by zero is not allowed") else .ok ()

/-- Root.validate_operands from app/operations.py: reject a negative
radicand (first check, regardless of the degree), then a zero degree. -/
def rootValidateOperands (a b : ℚ) : Except Err Unit :=
  if a < 0 then .error (.validationError "Cannot calculate root of negative number")
  else if b = 0 then .error (.validationError "Zero root is undefined")
  else .ok ()

/-- Operation strategy as consumed by the engine: a display name (the class
name, via `__str__`) and `execute` over validated decimal values, which
first runs the strategy's own operand validation.  Decimal arithmetic is
modelled exactly over ℚ. -/
structure Strategy where
  name : String
  run : ℚ → ℚ → Except Err ℚ

/-- Division strategy instance from app/operations.py: `execute` validates
the operands and returns `a / b`. -/
def divisionStrategy : Strategy where
  name := "Division"
  run a b := match divisionValidateOperands a b with
    | .error e => .error e
    | .ok _ => .ok (a / b)

/-- Addition strategy instance from app/operations.py: operand validation
is the base-class no-op and `execute` returns `a + b`. -/
def additionStrategy : Strategy where
  name := "Addition"
  run a b := .ok (a + b)

example : parseDec "12.5" = some ⟨125, -1⟩ := rfl
example : parseDec "-789" = some ⟨-789, 0⟩ := rfl
example : parseDec "2E+3" = some ⟨2, 3⟩ := rfl
example : parseDec "abc" = none := rfl
example : parseDec "" = none := rfl
example : pyStrip "  456  " = "456" := rfl
example : Dec.normalize ⟨2500, -3⟩ = ⟨25, -1⟩ := rfl
example : (Dec.val ⟨125, -1⟩) = (25 : ℚ) / 2 := by norm_num [Dec.val]

/-- Modelled from the spec: app/calculation.py is absent.  Immutable record
of one completed operation — operation name, decimal operands and result
(value level, in ℚ), and the ISO-8601 timestamp kept as its string. -/
structure Calculation where
  operation : String
  operand1 : ℚ
  operand2 : ℚ
  result : ℚ
  timestamp : String
  deriving DecidableEq, Repr

/-- Truncation of a rational toward zero, the rounding used by `Decimal`
integer division and remainder (per test_calculation.py: -10 // 3 = -3 and
-10 % 3 = -1). -/
def ratTrunc (q : ℚ) : Int := if q < 0 then -⌊-q⌋ else ⌊q⌋

/-- Modelled from the spec: result recomputation by operation name inside
app/calculation.py (absent).  Unknown names raise `OperationError`
("Unknown operation", per test_calculation.py).  `Power` and `Root` are
float-based in the source and are left outside the exact model: the model
reports them as unsupported rather than inventing a value. -/
def computeResult (operation : String) (a b : ℚ) : Except Err ℚ :=
  match operation with
  | "Addition" => .ok (a + b)
  | "Subtraction" => .ok (a - b)
  | "Multiplication" => .ok (a * b)
  | "Division" =>
    if b = 0 then .error (.operationError "Division by zero is not allowed") else .ok (a / b)
  | "Modulus" =>
    if b = 0 then .error (.operationError "Division by zero is not allowed")
    else .ok (a - b * (ratTrunc (a / b) : ℚ))
  | "Int_division" =>
    if b = 0 then .error (.operationError "Division by zero is not allowed")
    else .ok (ratTrunc (a / b) : ℚ)
  | "Percentage" =>
    if a < 0 ∨ b < 0 then
      .error (.operationError "Negative values are not allowed in percentage calculations")
    else .ok (a * b / 100)
  | "Abs_difference" => .ok |a - b|
  | "Power" => .error (.operationError "Power is not modelled exactly")
  | "Root" => .error (.operationError "Root is not modelled exactly")
  | _ => .error (.operationError ("Unknown operation: " ++ operation))

/-- Validity of a timestamp string, modelling `datetime.fromisoformat` on
its core subset: `YYYY-MM-DD`, optionally followed by `THH:MM`, `:SS`, and
a nonempty fractional part. -/
def iso8601Valid (s : String) : Bool :=
  match s.data with
  | y1 :: y2 :: y3 :: y4 :: '-' :: m1 :: m2 :: '-' :: d1 :: d2 :: rest =>
    [y1, y2, y3, y4, m1, m2, d1, d2].all Char.isDigit
      && 1 ≤ digitsToNat [m1, m2] && digitsToNat [m1, m2] ≤ 12
      && 1 ≤ digitsToNat [d1, d2] && digitsToNat [d1, d2] ≤ 31
      && isoTimePart rest
  | _ => false
where
  /-- Optional time component `THH:MM[:SS[.frac]]`. -/
  isoTimePart : List Char → Bool
    | [] => true
    | 'T' :: h1 :: h2 :: ':' :: mi1 :: mi2 :: rest2 =>
      [h1, h2, mi1, mi2].all Char.isDigit
        && digitsToNat [h1, h2] ≤ 23 && digitsToNat [mi1, mi2] ≤ 59
        && isoSecPart rest2
    | _ => false
  /-- Optional seconds component `:SS[.frac]`. -/
  isoSecPart : List Char → Bool
    | [] => true
    | ':' :: s1 :: s2 :: rest3 =>
      [s1, s2].all Char.isDigit && digitsToNat [s1, s2] ≤ 59 && isoFracPart rest3
    | _ => false
  /-- Optional fractional-seconds component `.digits`. -/
  isoFracPart : List Char → Bool
    | [] => true
    | '.' :: ds => !ds.isEmpty && ds.all Char.isDigit
    | _ => false

/-- Portable (string-keyed) form of one record: the five persistence
columns, each cell a string. -/
structure PortableForm where
  operation : String
  operand1 : String
  operand2 : String
  result : String
  timestamp : String

/-- Mismatch warning logged by `from_dict` (message shape per
test_calculation.py). -/
def mismatchWarning (stored computed : ℚ) : String :=
  "Loaded calculation result " ++ toString stored
    ++ " differs from computed result " ++ toString computed

/-- Modelled from the spec: Calculation.from_dict of app/calculation.py
(absent).  Parse the two operands and the stored result as decimals and the
timestamp as ISO-8601; any of the four failing raises the record-format
error ("Invalid calculation data" in the tests).  On success the result is
recomputed from the operands and operation name; a differing stored value
only adds a non-fatal warning (second component) and the stored value is
kept. -/
def fromDict (p : PortableForm) : Except Err (Calculation × List String) :=
  match parseDec p.operand1, parseDec p.operand2, parseDec p.result, iso8601Valid p.timestamp with
  | some a, some b, some r, true =>
    match computeResult p.operation a.val b.val with
    | .error e => .error e
    | .ok comp =>
      .ok ({ operation := p.operation, operand1 := a.val, operand2 := b.val,
             result := r.val, timestamp := p.timestamp },
           if comp = r.val then [] else [mismatchWarning r.val comp])
  | _, _, _, _ => .error (.dataFormatError "Invalid calculation data")

/-- Modelled from the spec: app/calculator_memento.py is absent.  Snapshot
of the full history plus a capture timestamp; copy-on-capture holds by
construction since lists are values. -/
structure CalculatorMemento where
  history : List Calculation
  timestamp : String
  deriving DecidableEq, Repr

/-- Modelled from the spec: the state owned by one Calculator instance from
app/calculator.py (absent) — history, the two snapshot stacks, the selected
strategy, and the configuration.  `clock` stands in for the wall clock used
to timestamp records and snapshots. -/
structure CalcState where
  history : List Calculation
  undoStack : List CalculatorMemento
  redoStack : List CalculatorMemento
  operationStrategy : Option Strategy
  config : Config
  clock : ℕ

/-- Capacity eviction of the history store: drop records from the front
until at most `m` remain (a no-op when the length is within the bound). -/
def evict (h : List Calculation) (m : ℕ) : List Calculation :=
  h.drop (h.length - m)

/-- State successor after a successful operation: checkpoint the
pre-operation history onto the undo stack, clear the redo stack, append the
new record and evict down to capacity. -/
def advanceState (s : CalcState) (c : Calculation) : CalcState :=
  { s with
    history := evict (s.history ++ [c]) s.config.maxHistorySize
    undoStack := ⟨s.history, toString s.clock⟩ :: s.undoStack
    redoStack := []
    clock := s.clock + 1 }

/-- Modelled from the spec: Calculator.perform_operation of
app/calculator.py (absent).  Fails with the no-operation error when no
strategy is selected ("No operation set" in the tests, an `OperationError`
in the repository taxonomy); validates both raw inputs; runs the strategy
(whose own operand validation surfaces as `ValidationError`); on success
builds the record, checkpoints, appends with eviction, clears the redo
stack and returns the result.  The created record and the successor state
are returned alongside the result to express the mutation of `self`. -/
def performOperation (s : CalcState) (a b : RawValue) :
    Except Err (ℚ × Calculation × CalcState) :=
  match s.operationStrategy with
  | none => .error .noOperationSelected
  | some strat =>
    match validateNumber a s.config with
    | .error e => .error e
    | .ok da =>
      match validateNumber b s.config with
      | .error e => .error e
      | .ok db =>
        match strat.run da.val db.val with
        | .error e => .error e
        | .ok r =>
          let c : Calculation :=
            { operation := strat.name, operand1 := da.val, operand2 := db.val,
              result := r, timestamp := toString s.clock }
          .ok (r, c, advanceState s c)

/-- Exception semantics of `perform_operation`: on failure the raised error
is paired with the unchanged state (no mutation happens before success). -/
def performOperationRun (s : CalcState) (a b : RawValue) :
    (Except Err ℚ) × CalcState :=
  match performOperation s a b with
  | .ok (r, _, sNext) => (.ok r, sNext)
  | .error e => (.error e, s)

/-- Modelled from the spec: Calculator.undo of app/calculator.py (absent).
Empty undo stack returns `false` without change; otherwise pop a snapshot,
push the current history onto the redo stack, and restore. -/
def undo (s : CalcState) : Bool × CalcState :=
  match s.undoStack with
  | [] => (false, s)
  | m :: rest =>
    (true, { s with history := m.history, undoStack := rest,
                    redoStack := ⟨s.history, toString s.clock⟩ :: s.redoStack })

/-- Modelled from the spec: Calculator.redo of app/calculator.py (absent),
symmetric to `undo`. -/
def redo (s : CalcState) : Bool × CalcState :=
  match s.redoStack with
  | [] => (false, s)
  | m :: rest =>
    (true, { s with history := m.history, redoStack := rest,
                    undoStack := ⟨s.history, toString s.clock⟩ :: s.undoStack })

/-- Iterated `undo`, keeping only the state. -/
def applyUndos (s : CalcState) : ℕ → CalcState
  | 0 => s
  | n + 1 => applyUndos (undo s).2 n

/-- Sequential run of `perform_operation` over a list of raw input pairs,
collecting the created records in order; `none` when any call fails. -/
def runOps (s : CalcState) : List (RawValue × RawValue) →
    Option (CalcState × List Calculation)
  | [] => some (s, [])
  | p :: ps =>
    match performOperation s p.1 p.2 with
    | .error _ => none
    | .ok (_, c, sNext) =>
      match runOps sNext ps with
      | none => none
      | some (sf, cs) => some (sf, c :: cs)

/-- History file source as seen by `load_history`: absent, unreadable as
the expected tabular format, or a parsed table of named columns with one
cell-lookup function per row. -/
inductive FileSource where
  | missing
  | malformed
  | table (cols : List String) (rows : List (String → String))

/-- Required header columns of the persistence format. -/
def requiredCols : List String :=
  ["operation", "operand1", "operand2", "result", "timestamp"]

/-- Portable form read off one table row. -/
def rowForm (r : String → String) : PortableForm :=
  { operation := r "operation", operand1 := r "operand1", operand2 := r "operand2",
    result := r "result", timestamp := r "timestamp" }

/-- Row-wise record reconstruction: every row must convert; the warnings of
all rows are concatenated. -/
def loadRows : List (String → String) → Except Err (List Calculation × List String)
  | [] => .ok ([], [])
  | r :: rs =>
    match fromDict (rowForm r) with
    | .error e => .error e
    | .ok (c, w) =>
      match loadRows rs with
      | .error e => .error e
      | .ok (cs, ws) => .ok (c :: cs, w ++ ws)

/-- Modelled from the spec: the load half of Calculator.load_history of
app/calculator.py (absent), per spec §4.5.  A missing file yields an empty
sequence; an unparsable file is the persistence error "malformed file"; a
header-only file yields an empty sequence with an informational note; a
table missing a required column is "invalid schema"; any row failing
field-level conversion makes the whole load fail with "file contains
invalid data" — no partial result is produced. -/
def loadRecords : FileSource → Except Err (List Calculation × List String)
  | .missing => .ok ([], [])
  | .malformed => .error (.persistenceError "malformed file")
  | .table cols rows =>
    if rows.isEmpty then .ok ([], ["Loaded empty history file"])
    else if requiredCols.all (fun c => cols.contains c) then
      match loadRows rows with
      | .error _ => .error (.persistenceError "file contains invalid data")
      | .ok (cs, ws) => .ok (cs, ws)
    else .error (.persistenceError "invalid schema")

/-- Modelled from the spec: Calculator.load_history of app/calculator.py
(absent).  On success the loaded records fully replace the history and both
snapshot stacks are reset. -/
def loadHistory (s : CalcState) (f : FileSource) : Except Err CalcState :=
  match loadRecords f with
  | .error e => .error e
  | .ok (recs, _) => .ok { s with history := recs, undoStack := [], redoStack := [] }

/-- Exception semantics of `load_history`: on failure the raised error is
paired with the unchanged state. -/
def loadHistoryRun (s : CalcState) (f : FileSource) : Option Err × CalcState :=
  match loadHistory s f with
  | .ok sNext => (none, sNext)
  | .error e => (some e, s)

/-! Helper lemmas. -/

lemma Dec.val_exp_zero (c : Int) : Dec.val ⟨c, 0⟩ = (c : ℚ) := by
  simp [Dec.val]

lemma stripZeros_val (n : ℕ) : ∀ c e : Int, c ≠ 0 →
    (stripZeros n c e).val = Dec.val ⟨c, e⟩ := by
  induction n with
  | zero => intro c e _; rfl
  | succ n ih =>
    intro c e hc
    rw [stripZeros]
    by_cases h10 : c % 10 = 0
    · rw [if_pos h10]
      have hdiv : 10 * (c / 10) = c := by omega
      have hne : c / 10 ≠ 0 := by
        intro h0; apply hc; omega
      rw [ih (c / 10) (e + 1) hne]
      show ((c / 10 : Int) : ℚ) * (10 : ℚ) ^ (e + 1) = (c : ℚ) * (10 : ℚ) ^ e
      rw [zpow_add_one₀ (by norm_num : (10 : ℚ) ≠ 0)]
      have : ((c / 10 : Int) : ℚ) * ((10 : ℚ) ^ e * 10) = (((10 * (c / 10) : Int)) : ℚ) * (10 : ℚ) ^ e := by
        push_cast; ring
      rw [this, hdiv]
    · rw [if_neg h10]

lemma Dec.normalize_val (d : Dec) : d.normalize.val = d.val := by
  unfold Dec.normalize
  by_cases hc : d.c = 0
  · rw [if_pos hc]
    simp [Dec.val, hc]
  · rw [if_neg hc, stripZeros_val _ _ _ hc]

lemma performOperation_ok_state {s : CalcState} {a b : RawValue} {r : ℚ}
    {c : Calculation} {sN : CalcState}
    (h : performOperation s a b = .ok (r, c, sN)) : sN = advanceState s c := by
  unfold performOperation at h
  split at h
  · exact Except.noConfusion h
  · split at h
    · exact Except.noConfusion h
    · split at h
      · exact Except.noConfusion h
      · split at h
        · exact Except.noConfusion h
        · injection h with hpair
          injection hpair with h1 hrest
          injection hrest with h2 h3
          rw [← h3, h2]

/-! Claim theorems. -/

/-- C10: Root.validate_operands raises ValidationError exactly when the
radicand is negative (regardless of the degree's parity) or the degree is
zero; for a non-negative radicand and nonzero degree it passes. -/
theorem C10_root_validation (a b : ℚ) :
    ((∃ m, rootValidateOperands a b = .error (Err.validationError m)) ↔ (a < 0 ∨ b = 0))
    ∧ (rootValidateOperands a b = .ok () ↔ (0 ≤ a ∧ b ≠ 0)) := by
  unfold rootValidateOperands
  by_cases h1 : a < 0
  · rw [if_pos h1]
    constructor
    · exact ⟨fun _ => Or.inl h1, fun _ => ⟨_, rfl⟩⟩
    · constructor
      · intro h; cases h
      · intro ⟨ha, _⟩; exact absurd h1 (not_lt.mpr ha)
  · rw [if_neg h1]
    by_cases h2 : b = 0
    · rw [if_pos h2]
      constructor
      · exact ⟨fun _ => Or.inr h2, fun _ => ⟨_, rfl⟩⟩
      · constructor
        · intro h; cases h
        · intro ⟨_, hb⟩; exact absurd h2 hb
    · rw [if_neg h2]
      constructor
      · constructor
        · intro ⟨m, hm⟩; cases hm
        · intro h; cases h with
          | inl h => exact absurd h h1
          | inr h => exact absurd h h2
      · exact ⟨fun _ => ⟨not_lt.mp h1, h2⟩, fun _ => rfl⟩

/-- Witness for C10 at concrete inputs: a negative radicand with odd degree
is rejected, and a positive radicand with nonzero degree passes. -/
theorem C10_root_validation_witness :
    (∃ m, rootValidateOperands (-64) 3 = .error (Err.validationError m))
    ∧ rootValidateOperands 16 2 = .ok () := by
  constructor
  · exact (C10_root_validation (-64) 3).1.mpr (Or.inl (by norm_num))
  · exact (C10_root_validation 16 2).2.mpr (by norm_num)

/-- C9: OperationFactory resolves each of the ten lowercase identifiers to
its strategy class, lookup is insensitive to the case of its argument, and
an identifier absent from the registry raises the `ValueError` rather than
returning a strategy. -/
theorem C9_operation_factory :
    create_operation "add" = .ok .Addition
    ∧ create_operation "subtract" = .ok .Subtraction
    ∧ create_operation "multiply" = .ok .Multiplication
    ∧ create_operation "divide" = .ok .Division
    ∧ create_operation "power" = .ok .Power
    ∧ create_operation "root" = .ok .Root
    ∧ create_operation "modulus" = .ok .Modulus
    ∧ create_operation "int_divide" = .ok .Int_division
    ∧ create_operation "percentage" = .ok .Percentage
    ∧ create_operation "abs_diff" = .ok .Abs_difference
    ∧ (∀ s t : String, pyLower s = pyLower t →
        ∀ cls, (create_operation s = .ok cls ↔ create_operation t = .ok cls))
    ∧ (∀ s : String, factoryOperations.lookup (pyLower s) = none →
        create_operation s = .error ("Unknown operation: " ++ s)) := by
  refine ⟨rfl, rfl, rfl, rfl, rfl, rfl, rfl, rfl, rfl, rfl, ?_, ?_⟩
  · intro s t h cls
    rcases hl : factoryOperations.lookup (pyLower t) with _ | cls2 <;>
      simp [create_operation, h, hl]
  · intro s h
    unfold create_operation
    rw [h]

/-- Witness for C9: uppercase and lowercase spellings resolve identically,
and an unregistered identifier fails. -/
theorem C9_operation_factory_witness :
    create_operation "ADD" = .ok .Addition
    ∧ create_operation "bogus" = .error "Unknown operation: bogus" := by
  have h := C9_operation_factory
  exact ⟨(h.2.2.2.2.2.2.2.2.2.2.1 "ADD" "add" rfl .Addition).mpr h.1,
         h.2.2.2.2.2.2.2.2.2.2.2 "bogus" rfl⟩

/-- C5: perform_operation with no selected strategy fails with the
no-operation-selected error, for every input pair and every such state. -/
theorem C5_no_operation_selected (s : CalcState) (a b : RawValue)
    (h : s.operationStrategy = none) :
    performOperation s a b = .error .noOperationSelected := by
  unfold performOperation
  rw [h]

/-- Witness for C5 on a freshly constructed state and concrete inputs. -/
theorem C5_no_operation_selected_witness :
    performOperation ⟨[], [], [], none, ⟨5, ⟨1000000, 0⟩, false⟩, 0⟩
      (.ofNum ⟨2, 0⟩) (.ofNum ⟨3, 0⟩) = .error .noOperationSelected :=
  C5_no_operation_selected _ _ _ rfl

/-- C2: undo after a successful execute returns true and restores the
pre-execute history, and redo then returns true and restores the
post-execute history exactly. -/
theorem C2_undo_redo_roundtrip (s : CalcState) (a b : RawValue) (r : ℚ)
    (c : Calculation) (sN : CalcState)
    (h : performOperation s a b = .ok (r, c, sN)) :
    (undo sN).1 = true
    ∧ ((undo sN).2).history = s.history
    ∧ (redo (undo sN).2).1 = true
    ∧ ((redo (undo sN).2).2).history = sN.history := by
  rw [performOperation_ok_state h]
  exact ⟨rfl, rfl, rfl, rfl⟩

/-- Witness for C2: a concrete addition on an initially empty engine. -/
theorem C2_undo_redo_roundtrip_witness :
    (undo (advanceState ⟨[], [], [], some additionStrategy, ⟨5, ⟨1000000, 0⟩, false⟩, 0⟩
        ⟨"Addition", 2, 3, 5, "0"⟩)).1 = true
    ∧ ((undo (advanceState ⟨[], [], [], some additionStrategy, ⟨5, ⟨1000000, 0⟩, false⟩, 0⟩
        ⟨"Addition", 2, 3, 5, "0"⟩)).2).history = [] := by
  have h := C2_undo_redo_roundtrip
    ⟨[], [], [], some additionStrategy, ⟨5, ⟨1000000, 0⟩, false⟩, 0⟩
    (.ofNum ⟨2, 0⟩) (.ofNum ⟨3, 0⟩) 5 ⟨"Addition", 2, 3, 5, "0"⟩
    (advanceState ⟨[], [], [], some additionStrategy, ⟨5, ⟨1000000, 0⟩, false⟩, 0⟩
      ⟨"Addition", 2, 3, 5, "0"⟩)
    (by
      norm_num [performOperation, validateNumber, Dec.val, Dec.normalize, stripZeros,
        additionStrategy]
      exact ⟨rfl, rfl⟩)
  exact ⟨h.1, h.2.1⟩

/-- C3: after any state reached by one or more undo calls, a subsequent
successful execute leaves an empty redo stack, so redo returns false and
changes nothing. -/
theorem C3_execute_clears_redo (s : CalcState) (n : ℕ) (a b : RawValue)
    (r : ℚ) (c : Calculation) (sN : CalcState) (hn : 1 ≤ n)
    (h : performOperation (applyUndos s n) a b = .ok (r, c, sN)) :
    redo sN = (false, sN) := by
  rw [performOperation_ok_state h]
  rfl

/-- Witness for C3: one undo from a state with one checkpoint, then a
concrete successful addition. -/
theorem C3_execute_clears_redo_witness :
    redo (advanceState
        (applyUndos ⟨[], [⟨[], "0"⟩], [], some additionStrategy, ⟨5, ⟨1000000, 0⟩, false⟩, 0⟩ 1)
        ⟨"Addition", 2, 3, 5, "0"⟩)
      = (false, advanceState
        (applyUndos ⟨[], [⟨[], "0"⟩], [], some additionStrategy, ⟨5, ⟨1000000, 0⟩, false⟩, 0⟩ 1)
        ⟨"Addition", 2, 3, 5, "0"⟩) :=
  C3_execute_clears_redo
    ⟨[], [⟨[], "0"⟩], [], some additionStrategy, ⟨5, ⟨1000000, 0⟩, false⟩, 0⟩
    1 (.ofNum ⟨2, 0⟩) (.ofNum ⟨3, 0⟩) 5 ⟨"Addition", 2, 3, 5, "0"⟩
    _ (by decide)
    (by
      norm_num [applyUndos, undo, performOperation, validateNumber, Dec.val, Dec.normalize,
        stripZeros, additionStrategy]
      exact ⟨rfl, rfl⟩)

/-- C8: executing divide with a zero divisor (and any valid first operand)
raises the divisor ValidationError of Division.validate_operands, and the
engine state — in particular the history — is left unchanged: no record is
appended by the failed call. -/
theorem C8_divide_by_zero (s : CalcState) (a : RawValue) (da : Dec)
    (hstrat : s.operationStrategy = some divisionStrategy)
    (hva : validateNumber a s.config = .ok da)
    (hmax : (0 : ℚ) ≤ s.config.maxInputValue.val) :
    performOperationRun s a (.ofNum ⟨0, 0⟩) =
      (.error (.validationError "Division by zero is not allowed"), s) := by
  have hz : Dec.val ⟨0, 0⟩ = 0 := by simp [Dec.val]
  have hvb : validateNumber (.ofNum ⟨0, 0⟩) s.config = .ok ⟨0, 0⟩ := by
    simp only [validateNumber]
    rw [hz]
    rw [if_neg (by simpa using not_lt.mpr hmax)]
    rfl
  simp only [performOperationRun, performOperation, hstrat, hva, hvb]
  simp [hz, divisionStrategy, divisionValidateOperands]

/-- Witness for C8: dividing 5 by 0 on a fresh engine with Division
selected. -/
theorem C8_divide_by_zero_witness :
    performOperationRun ⟨[], [], [], some divisionStrategy, ⟨5, ⟨1000000, 0⟩, false⟩, 0⟩
      (.ofNum ⟨5, 0⟩) (.ofNum ⟨0, 0⟩) =
      (.error (.validationError "Division by zero is not allowed"),
        ⟨[], [], [], some divisionStrategy, ⟨5, ⟨1000000, 0⟩, false⟩, 0⟩) :=
  C8_divide_by_zero _ _ ⟨5, 0⟩ rfl
    (by norm_num [validateNumber, Dec.val, Dec.normalize, stripZeros])
    (by norm_num [Dec.val])

lemma evict_of_le {h : List Calculation} {m : ℕ} (hle : h.length ≤ m) :
    evict h m = h := by
  rw [evict]
  have hz : h.length - m = 0 := by omega
  rw [hz, List.drop_zero]

lemma evict_length_le (h : List Calculation) (m : ℕ) : (evict h m).length ≤ m := by
  rw [evict, List.length_drop]
  omega

lemma evict_append (x cs : List Calculation) (m : ℕ) :
    evict (evict x m ++ cs) m = evict (x ++ cs) m := by
  unfold evict
  rw [List.drop_append_eq_append_drop, List.drop_append_eq_append_drop, List.drop_drop]
  congr 1
  · congr 1
    simp only [List.length_append, List.length_drop]
    omega
  · congr 1
    simp only [List.length_append, List.length_drop]
    omega

lemma runOps_invariant (ps : List (RawValue × RawValue)) :
    ∀ s sf : CalcState, ∀ cs : List Calculation, runOps s ps = some (sf, cs) →
      s.history.length ≤ s.config.maxHistorySize →
      sf.history = evict (s.history ++ cs) s.config.maxHistorySize
      ∧ sf.config = s.config := by
  induction ps with
  | nil =>
    intro s sf cs h hlen
    rw [runOps] at h
    injection h with h'
    injection h' with hsf hcs
    rw [← hsf, ← hcs, List.append_nil, evict_of_le hlen]
    exact ⟨rfl, rfl⟩
  | cons p ps ih =>
    intro s sf cs h hlen
    rw [runOps] at h
    split at h
    · exact Option.noConfusion h
    next r c sNext hp =>
      split at h
      · exact Option.noConfusion h
      next sf2 cs2 hrun =>
        injection h with h'
        injection h' with hsf hcs
        rw [performOperation_ok_state hp] at hrun
        have hlen2 : (advanceState s c).history.length ≤
            (advanceState s c).config.maxHistorySize :=
          evict_length_le _ _
        obtain ⟨ih1, ih2⟩ := ih (advanceState s c) sf2 cs2 hrun hlen2
        constructor
        · rw [← hsf, ih1]
          show evict (evict (s.history ++ [c]) s.config.maxHistorySize ++ cs2)
              s.config.maxHistorySize = evict (s.history ++ cs) s.config.maxHistorySize
          rw [evict_append, List.append_assoc, List.singleton_append, hcs]
        · rw [← hsf, ih2]
          rfl

/-- C1: after a sequence of N successful operations from an empty history
with N exceeding max_history_size, the history has length exactly
max_history_size and holds exactly the most recent records in order — FIFO
eviction keeps the final segment of the run's records. -/
theorem C1_history_fifo_eviction (s : CalcState) (ps : List (RawValue × RawValue))
    (sf : CalcState) (cs : List Calculation)
    (h : runOps s ps = some (sf, cs)) (h0 : s.history = [])
    (hN : s.config.maxHistorySize < cs.length) :
    sf.history.length = s.config.maxHistorySize
    ∧ sf.history = cs.drop (cs.length - s.config.maxHistorySize) := by
  obtain ⟨h1, -⟩ := runOps_invariant ps s sf cs h (by rw [h0]; exact Nat.zero_le _)
  rw [h0, List.nil_append] at h1
  refine ⟨?_, h1⟩
  rw [h1, evict, List.length_drop]
  omega

/-- Witness for C1: two additions on an engine with max_history_size 1 keep
only the second record. -/
theorem C1_history_fifo_eviction_witness :
    (advanceState
        (advanceState ⟨[], [], [], some additionStrategy, ⟨1, ⟨1000000, 0⟩, false⟩, 0⟩
          ⟨"Addition", 1, 2, 3, "0"⟩)
        ⟨"Addition", 3, 4, 7, "1"⟩).history
      = [⟨"Addition", 3, 4, 7, "1"⟩] := by
  have h := C1_history_fifo_eviction
    ⟨[], [], [], some additionStrategy, ⟨1, ⟨1000000, 0⟩, false⟩, 0⟩
    [(.ofNum ⟨1, 0⟩, .ofNum ⟨2, 0⟩), (.ofNum ⟨3, 0⟩, .ofNum ⟨4, 0⟩)]
    (advanceState
      (advanceState ⟨[], [], [], some additionStrategy, ⟨1, ⟨1000000, 0⟩, false⟩, 0⟩
        ⟨"Addition", 1, 2, 3, "0"⟩)
      ⟨"Addition", 3, 4, 7, "1"⟩)
    [⟨"Addition", 1, 2, 3, "0"⟩, ⟨"Addition", 3, 4, 7, "1"⟩]
    (by
      norm_num [runOps, performOperation, validateNumber, Dec.val, Dec.normalize,
        stripZeros, additionStrategy, advanceState, evict]
      exact ⟨⟨rfl, rfl⟩, rfl, rfl⟩)
    rfl (by norm_num)
  rw [h.2]
  rfl

lemma dropWhile_append_of_all {p : Char → Bool} {t : List Char}
    (h : ∀ ch ∈ t, p ch) (l : List Char) :
    (t ++ l).dropWhile p = l.dropWhile p := by
  induction t with
  | nil => rfl
  | cons ch t ih =>
    rw [List.cons_append, List.dropWhile_cons, if_pos (h ch (List.mem_cons_self ch t))]
    exact ih fun x hx => h x (List.mem_cons_of_mem ch hx)

lemma dropWhile_append_split (p : Char → Bool) (l u : List Char) :
    (l ++ u).dropWhile p =
      if (l.dropWhile p).isEmpty then u.dropWhile p else l.dropWhile p ++ u := by
  induction l with
  | nil => rfl
  | cons ch l ih =>
    rw [List.cons_append, List.dropWhile_cons, List.dropWhile_cons]
    by_cases hp : p ch
    · rw [if_pos hp, if_pos hp, ih]
    · rw [if_neg hp, if_neg hp]
      rfl

lemma pyStrip_pad (t u s : String)
    (ht : ∀ ch ∈ t.data, ch.isWhitespace) (hu : ∀ ch ∈ u.data, ch.isWhitespace) :
    pyStrip (t ++ s ++ u) = pyStrip s := by
  unfold pyStrip
  rw [String.data_append, String.data_append]
  rw [List.append_assoc, dropWhile_append_of_all ht]
  rw [dropWhile_append_split]
  by_cases hs : (s.data.dropWhile Char.isWhitespace).isEmpty
  · rw [if_pos hs]
    rw [List.dropWhile_eq_nil_iff.mpr hu]
    rw [List.isEmpty_iff.mp hs]
  · rw [if_neg hs, List.reverse_append]
    rw [dropWhile_append_of_all fun x hx => hu x (List.mem_reverse.mp hx)]

/-- C7: validate_number strips incidental whitespace around string inputs,
rejects non-numeric input and input whose magnitude exceeds
max_input_value with a ValidationError, and otherwise returns the parsed
number normalized — normalization preserving its value. -/
theorem C7_validate_number :
    (∀ t u s : String, (∀ ch ∈ t.data, ch.isWhitespace) → (∀ ch ∈ u.data, ch.isWhitespace) →
      ∀ cfg : Config, validateNumber (.ofString (t ++ s ++ u)) cfg
        = validateNumber (.ofString s) cfg)
    ∧ (∀ (s : String) (cfg : Config), parseDec (pyStrip s) = none →
        validateNumber (.ofString s) cfg =
          .error (.validationError ("Invalid number format: " ++ pyStrip s)))
    ∧ (∀ (s : String) (cfg : Config) (d : Dec), parseDec (pyStrip s) = some d →
        |d.val| > cfg.maxInputValue.val →
        validateNumber (.ofString s) cfg =
          .error (.validationError "Value exceeds maximum allowed"))
    ∧ (∀ (s : String) (cfg : Config) (d : Dec), parseDec (pyStrip s) = some d →
        ¬ |d.val| > cfg.maxInputValue.val →
        validateNumber (.ofString s) cfg = .ok d.normalize)
    ∧ (∀ d : Dec, d.normalize.val = d.val) := by
  refine ⟨?_, ?_, ?_, ?_, Dec.normalize_val⟩
  · intro t u s ht hu cfg
    simp only [validateNumber, pyStrip_pad t u s ht hu]
  · intro s cfg h
    simp only [validateNumber, h]
  · intro s cfg d h hgt
    simp only [validateNumber, h]
    rw [if_pos hgt]
  · intro s cfg d h hle
    simp only [validateNumber, h]
    rw [if_neg hle]

/-- Witness for C7: padded " 5 " validates like "5" and returns 5; "abc" is
rejected as non-numeric; "2000000" exceeds a bound of 1000000. -/
theorem C7_validate_number_witness :
    validateNumber (.ofString (" " ++ "5" ++ " ")) ⟨5, ⟨1000000, 0⟩, false⟩
      = validateNumber (.ofString "5") ⟨5, ⟨1000000, 0⟩, false⟩
    ∧ validateNumber (.ofString "abc") ⟨5, ⟨1000000, 0⟩, false⟩
      = .error (.validationError ("Invalid number format: " ++ pyStrip "abc"))
    ∧ validateNumber (.ofString "2000000") ⟨5, ⟨1000000, 0⟩, false⟩
      = .error (.validationError "Value exceeds maximum allowed")
    ∧ validateNumber (.ofString "5") ⟨5, ⟨1000000, 0⟩, false⟩
      = .ok (Dec.normalize ⟨5, 0⟩) := by
  have h := C7_validate_number
  refine ⟨h.1 " " " " "5" (by decide) (by decide) _, ?_, ?_, ?_⟩
  · exact h.2.1 "abc" _ rfl
  · exact h.2.2.1 "2000000" _ ⟨2000000, 0⟩ rfl (by norm_num [Dec.val])
  · exact h.2.2.2.1 "5" _ ⟨5, 0⟩ rfl (by norm_num [Dec.val])

/-- C6: from_portable_form fails with the record-format error whenever any
of the four typed fields (two operands, result, timestamp) does not parse;
when all parse and the result is recomputed, a mismatch with the stored
value only produces a warning — the record keeps the stored value and the
reconstruction succeeds. -/
theorem C6_from_portable_form :
    (∀ p : PortableForm,
      (parseDec p.operand1 = none ∨ parseDec p.operand2 = none ∨ parseDec p.result = none
        ∨ iso8601Valid p.timestamp = false) →
      fromDict p = .error (.dataFormatError "Invalid calculation data"))
    ∧ (∀ (p : PortableForm) (a b r : Dec) (comp : ℚ),
        parseDec p.operand1 = some a → parseDec p.operand2 = some b →
        parseDec p.result = some r → iso8601Valid p.timestamp = true →
        computeResult p.operation a.val b.val = .ok comp →
        ∃ warns, fromDict p = .ok
            ({ operation := p.operation, operand1 := a.val, operand2 := b.val,
               result := r.val, timestamp := p.timestamp }, warns)
          ∧ (warns = [] ↔ comp = r.val)) := by
  constructor
  · intro p hbad
    rcases h1 : parseDec p.operand1 with _ | a <;>
      rcases h2 : parseDec p.operand2 with _ | b <;>
        rcases h3 : parseDec p.result with _ | r <;>
          rcases h4 : iso8601Valid p.timestamp <;>
            simp_all [fromDict]
  · intro p a b r comp h1 h2 h3 h4 h5
    refine ⟨if comp = r.val then [] else [mismatchWarning r.val comp], ?_, ?_⟩
    · simp only [fromDict, h1, h2, h3, h4, h5]
    · by_cases hc : comp = r.val
      · simp [hc]
      · simp [hc, mismatchWarning]

/-- Witness for C6: an Addition row whose stored result 10 disagrees with
the recomputed 5 still loads, with a nonempty warning list; a row with a
non-numeric operand fails with the record-format error. -/
theorem C6_from_portable_form_witness :
    (∃ warns, fromDict ⟨"Addition", "2", "3", "10", "2024-01-01T10:00:00"⟩ = .ok
        ({ operation := "Addition", operand1 := Dec.val ⟨2, 0⟩, operand2 := Dec.val ⟨3, 0⟩,
           result := Dec.val ⟨10, 0⟩, timestamp := "2024-01-01T10:00:00" }, warns)
      ∧ (warns = [] ↔ Dec.val ⟨2, 0⟩ + Dec.val ⟨3, 0⟩ = Dec.val ⟨10, 0⟩))
    ∧ fromDict ⟨"Addition", "bad", "3", "5", "2024-01-01T10:00:00"⟩
        = .error (.dataFormatError "Invalid calculation data") := by
  have h := C6_from_portable_form
  exact ⟨h.2 ⟨"Addition", "2", "3", "10", "2024-01-01T10:00:00"⟩ ⟨2, 0⟩ ⟨3, 0⟩ ⟨10, 0⟩
           (Dec.val ⟨2, 0⟩ + Dec.val ⟨3, 0⟩) rfl rfl rfl rfl rfl,
         h.1 ⟨"Addition", "bad", "3", "5", "2024-01-01T10:00:00"⟩ (Or.inl rfl)⟩

lemma loadRows_error {rows : List (String → String)} {r : String → String} {e : Err}
    (hm : r ∈ rows) (he : fromDict (rowForm r) = .error e) :
    ∃ e2, loadRows rows = .error e2 := by
  induction rows with
  | nil => exact absurd hm (List.not_mem_nil r)
  | cons r0 rs ih =>
    rcases List.mem_cons.mp hm with heq | hmem
    · subst heq
      rw [loadRows, he]
      exact ⟨e, rfl⟩
    · rw [loadRows]
      rcases h0 : fromDict (rowForm r0) with e0 | cw
      · exact ⟨e0, rfl⟩
      · obtain ⟨e2, h2⟩ := ih hmem
        rw [h2]
        exact ⟨e2, rfl⟩

/-- C4: on an existing history file, every load failure is reported as a
PersistenceError — an unparsable file, a parsed table missing a required
column, and a table in which any single row fails field-level conversion;
in each case the engine state (in particular the history) is unchanged, so
no partial load occurs. -/
theorem C4_load_failures :
    (∀ s : CalcState,
      loadHistoryRun s .malformed = (some (.persistenceError "malformed file"), s))
    ∧ (∀ (s : CalcState) (cols : List String) (rows : List (String → String)),
        rows ≠ [] → requiredCols.all (fun c => cols.contains c) = false →
        loadHistoryRun s (.table cols rows) = (some (.persistenceError "invalid schema"), s))
    ∧ (∀ (s : CalcState) (cols : List String) (rows : List (String → String))
        (r : String → String) (e : Err),
        r ∈ rows → fromDict (rowForm r) = .error e →
        requiredCols.all (fun c => cols.contains c) = true →
        loadHistoryRun s (.table cols rows) =
          (some (.persistenceError "file contains invalid data"), s)) := by
  refine ⟨fun s => rfl, ?_, ?_⟩
  · intro s cols rows hne hall
    have hi : rows.isEmpty = false := by
      rcases rows with _ | ⟨r0, rs⟩
      · exact absurd rfl hne
      · rfl
    simp only [loadHistoryRun, loadHistory, loadRecords, hi, hall]
    rfl
  · intro s cols rows r e hm he hall
    have hi : rows.isEmpty = false := by
      rcases rows with _ | ⟨r0, rs⟩
      · exact absurd hm (List.not_mem_nil r)
      · rfl
    obtain ⟨e2, h2⟩ := loadRows_error hm he
    simp only [loadHistoryRun, loadHistory, loadRecords, hi, hall, h2]
    rfl

/-- Witness for C4 on a fresh engine: a malformed file, a table missing the
required columns, and a table whose single row has a non-numeric operand
all fail with the respective PersistenceError and leave the state as it
was. -/
theorem C4_load_failures_witness :
    loadHistoryRun ⟨[], [], [], none, ⟨5, ⟨1000000, 0⟩, false⟩, 0⟩ .malformed
      = (some (.persistenceError "malformed file"),
          ⟨[], [], [], none, ⟨5, ⟨1000000, 0⟩, false⟩, 0⟩)
    ∧ loadHistoryRun ⟨[], [], [], none, ⟨5, ⟨1000000, 0⟩, false⟩, 0⟩
        (.table ["op"] [fun _ => "x"])
      = (some (.persistenceError "invalid schema"),
          ⟨[], [], [], none, ⟨5, ⟨1000000, 0⟩, false⟩, 0⟩)
    ∧ loadHistoryRun ⟨[], [], [], none, ⟨5, ⟨1000000, 0⟩, false⟩, 0⟩
        (.table requiredCols
          [fun c => if c = "operation" then "Addition"
                    else if c = "timestamp" then "2024-01-01" else "bad"])
      = (some (.persistenceError "file contains invalid data"),
          ⟨[], [], [], none, ⟨5, ⟨1000000, 0⟩, false⟩, 0⟩) := by
  have h := C4_load_failures
  refine ⟨h.1 _, h.2.1 _ _ _ (List.cons_ne_nil _ _) rfl, ?_⟩
  exact h.2.2 _ _ _
    (fun c => if c = "operation" then "Addition"
              else if c = "timestamp" then "2024-01-01" else "bad")
    (.dataFormatError "Invalid calculation data")
    (List.mem_singleton_self _) rfl rfl

end CalcSpec
